import Mathlib

/-!
Shallow embedding of the workflow-orchestration and memory-management core of
the msis-617 compliance repository, together with proofs settling the frozen
claims about it.

Conventions used throughout:
* Python wall-clock times (datetime.now()) are modelled as explicit Nat
  parameters counting microseconds; isoformat timestamps have microsecond
  granularity, while strftime with format %Y%m%d-%H%M%S has second
  granularity, so an entry id built from the latter only depends on
  now / 1000000.
* Python dicts with string keys are modelled as association lists in
  insertion order, with alLookup / alSet mirroring d[k] reads and writes.
* Randomness (random.randint, random.choice, random.sample) is modelled by
  injected oracle parameters; where the source guarantees a range
  (randint(a, b)), theorems carry that range as a hypothesis.
* Fallible code is modelled with Except String; a value Except.error e
  models a raised exception.
-/

set_option maxRecDepth 100000

namespace ComplianceGuard

/-! ## Shared association-list helpers (Python dict with string keys) -/

def alLookup {β : Type} (l : List (String × β)) (k : String) : Option β :=
  (l.find? (fun p => p.1 == k)).map Prod.snd

def alSet {β : Type} (l : List (String × β)) (k : String) (v : β) : List (String × β) :=
  if l.any (fun p => p.1 == k) then
    l.map (fun p => if p.1 == k then (k, v) else p)
  else
    l ++ [(k, v)]

def alRemove {β : Type} (l : List (String × β)) (k : String) : List (String × β) :=
  l.filter (fun p => p.1 != k)

instance {ε α : Type} [DecidableEq ε] [DecidableEq α] : DecidableEq (Except ε α) :=
  fun a b =>
    match a, b with
    | .error x, .error y =>
      if h : x = y then .isTrue (by rw [h])
      else .isFalse (by intro hc; cases hc; exact h rfl)
    | .error _, .ok _ => .isFalse (by intro h; cases h)
    | .ok _, .error _ => .isFalse (by intro h; cases h)
    | .ok x, .ok y =>
      if h : x = y then .isTrue (by rw [h])
      else .isFalse (by intro hc; cases hc; exact h rfl)

/-- Python substring test: pat in s. -/
def strContains (s pat : String) : Bool :=
  decide (pat.data <:+: s.data)

/-! ## Data shapes produced by the stage agents and consumed by the stores -/

/-- One gap record as built by ComplianceAnalyzerAgent._identify_compliance_gaps
(src/agents/analyzer_agent.py lines 85-93). -/
structure Gap where
  regulation : String
  gap_type : String
  severity : String
  description : String
  affected_areas : List String
deriving DecidableEq

/-- One value of the regulation_performance dict built by
ReportGeneratorAgent._generate_detailed_analysis (reporter_agent.py lines 102-108). -/
structure RegPerf where
  score : Nat
  status : String
  benchmark : String
  trend : String
deriving DecidableEq

/-- One recommendation record built by
ComplianceAnalyzerAgent._generate_recommendations (analyzer_agent.py lines 108-117). -/
structure Recommendation where
  regulation : String
  priority : String
  action : String
  estimated_effort : String
  timeline : String
  impact : String
deriving DecidableEq

/-- The projection of the generated compliance report that the memory bank
reads (memory_bank.py lines 52-56 and 239-253): executive_summary fields,
detailed_analysis fields, and recommendations.immediate_actions.  The fields
follow reporter_agent.py: gap_breakdown is a dict from regulation name to the
list of the gaps of that regulation (lines 111-118), regulation_performance is a
dict from regulation name to a RegPerf record (lines 102-108). -/
structure ComplianceData where
  overall_compliance_score : Int
  overall_risk_score : Int
  compliance_status : String
  regulation_performance : List (String × RegPerf)
  gap_breakdown : List (String × List Gap)
  immediate_actions : List Recommendation
deriving DecidableEq

/-! ## Memory bank (src/memory/memory_bank.py, class ComplianceMemoryBank) -/

/-- Result of ComplianceMemoryBank._extract_key_findings (memory_bank.py
lines 239-253).  Note that high_priority_gaps collects, for each value of the
gap_breakdown dict that is a list containing a high-severity gap, that whole
list: its elements are gap LISTS, exactly as in the source. -/
structure KeyFindings where
  overall_score : Int
  risk_level : String
  high_priority_gaps : List (List Gap)
  top_regulations : List String
  recommendation_count : Nat
deriving DecidableEq

def extract_key_findings (d : ComplianceData) : KeyFindings :=
  { overall_score := d.overall_compliance_score
    risk_level := d.compliance_status
    high_priority_gaps :=
      (d.gap_breakdown.map Prod.snd).filter
        (fun gl => gl.any (fun g => g.severity == "high"))
    top_regulations := (d.regulation_performance.map Prod.fst).take 3
    recommendation_count := d.immediate_actions.length }

/-- One stored memory entry (memory_bank.py lines 48-58). -/
structure MemoryEntry where
  entry_id : String
  company_id : String
  timestamp : Nat
  compliance_score : Int
  risk_score : Int
  key_findings : KeyFindings
  gap_count : Nat
  regulation_scores : List (String × RegPerf)
  raw_data : ComplianceData
deriving DecidableEq

/-- One audit-trail record (memory_bank.py lines 67-73). -/
structure AuditEntry where
  action : String
  company_id : String
  entry_id : String
  timestamp : Nat
  compliance_score : Int
deriving DecidableEq

/-- State of ComplianceMemoryBank (memory_bank.py lines 19-33); defaults are
the constructor defaults.  The metrics dict is split into its fields. -/
structure MemoryBank where
  max_entries : Nat := 10000
  memory_store : List (String × List MemoryEntry) := []
  audit_trail : List AuditEntry := []
  total_stored : Nat := 0
  compactions_performed : Nat := 0
  last_compaction : Option Nat := none
deriving DecidableEq

def entriesOf (b : MemoryBank) (c : String) : List MemoryEntry :=
  (alLookup b.memory_store c).getD []

def globalEntryCount (b : MemoryBank) : Nat :=
  (b.memory_store.map (fun p => p.2.length)).sum

/-- memory_bank.py lines 255-258: compaction is checked against the GLOBAL
entry count over all companies, compared with max_entries. -/
def should_compact (b : MemoryBank) : Bool :=
  decide (globalEntryCount b > b.max_entries)

/-- The test in _compact_memory line 270: any gap-list element of
high_priority_gaps whose Python str(...).lower() contains "high".  The str of
a list of gap dicts contains "high" exactly when some string field of some
gap contains it after lowercasing (the dict keys regulation, gap_type,
severity, description, affected_areas do not contain the letters "high"). -/
def gapMentionsHigh (g : Gap) : Bool :=
  strContains g.regulation.toLower "high" ||
  strContains g.gap_type.toLower "high" ||
  strContains g.severity.toLower "high" ||
  strContains g.description.toLower "high" ||
  g.affected_areas.any (fun a => strContains a.toLower "high")

def gapListMentionsHigh (gl : List Gap) : Bool :=
  gl.any gapMentionsHigh

/-- An entry is kept unconditionally by compaction (memory_bank.py
lines 267-271). -/
def isHighRisk (e : MemoryEntry) : Bool :=
  decide (e.compliance_score < 70) ||
  e.key_findings.high_priority_gaps.any gapListMentionsHigh

/-- Sort order of sorted(entries, key=timestamp, reverse=True): newest
first.  Sorting the isoformat strings coincides with sorting the
microsecond counts because isoformat timestamps of the same clock are
lexicographically chronological.  The model sorts with a stable insertion
sort; the Python sort is also stable, and any two stable sorts of the same
key agree, so the outputs coincide. -/
def tsGE (a b : MemoryEntry) : Prop :=
  b.timestamp ≤ a.timestamp

instance : DecidableRel tsGE :=
  fun a b => Nat.decLe b.timestamp a.timestamp

instance : IsTotal MemoryEntry tsGE :=
  ⟨fun a b => Nat.le_total b.timestamp a.timestamp⟩

instance : IsTrans MemoryEntry tsGE :=
  ⟨fun _ _ _ hab hbc => Nat.le_trans hbc hab⟩

/-- The Python dict comprehension over entry_id in _compact_memory line 276:
inserting a key that is already present keeps its position and replaces the
value; a new key is appended. -/
def pyDictInsert (acc : List MemoryEntry) (e : MemoryEntry) : List MemoryEntry :=
  if acc.any (fun x => x.entry_id == e.entry_id) then
    acc.map (fun x => if x.entry_id == e.entry_id then e else x)
  else
    acc ++ [e]

def pyDedupById (l : List MemoryEntry) : List MemoryEntry :=
  l.foldl pyDictInsert []

/-- Per-company compaction body (memory_bank.py lines 266-277): union of the
must-keep entries and the 50 most recent entries, deduplicated by entry id. -/
def compactEntries (entries : List MemoryEntry) : List MemoryEntry :=
  let high_risk := entries.filter isHighRisk
  let recent := (List.insertionSort tsGE entries).take 50
  pyDedupById (high_risk ++ recent)

/-- memory_bank.py lines 260-282: every company with strictly more than 100
entries has its list replaced by its compaction; other companies, the audit
trail and total_stored are untouched; the compaction counter and timestamp
are updated. -/
def compact_memory (b : MemoryBank) (now : Nat) : MemoryBank :=
  { b with
    memory_store :=
      b.memory_store.map (fun p => if p.2.length > 100 then (p.1, compactEntries p.2) else p)
    compactions_performed := b.compactions_performed + 1
    last_compaction := some now }

/-- Entry id built at memory_bank.py line 46 from strftime with second
granularity: it only depends on now / 1000000. -/
def mkEntryId (company_id : String) (now : Nat) : String :=
  "COMP-" ++ company_id ++ "-" ++ toString (now / 1000000)

/-- The memory entry built at memory_bank.py lines 48-58. -/
def mkMemoryEntry (company_id : String) (d : ComplianceData) (now : Nat) :
    MemoryEntry :=
  { entry_id := mkEntryId company_id now
    company_id := company_id
    timestamp := now
    compliance_score := d.overall_compliance_score
    risk_score := d.overall_risk_score
    key_findings := extract_key_findings d
    gap_count := d.gap_breakdown.length
    regulation_scores := d.regulation_performance
    raw_data := d }

/-- memory_bank.py lines 35-85.  Appends one entry under company_id, appends
an audit record, increments total_stored, then compacts if the global count
exceeds max_entries.  Returns the new state and the entry id. -/
def store_compliance_check (b : MemoryBank) (company_id : String)
    (d : ComplianceData) (now : Nat) : MemoryBank × String :=
  let entry_id := mkEntryId company_id now
  let e : MemoryEntry := mkMemoryEntry company_id d now
  let b1 : MemoryBank :=
    { b with
      memory_store := alSet b.memory_store company_id (entriesOf b company_id ++ [e])
      audit_trail := b.audit_trail ++
        [{ action := "compliance_check_stored", company_id := company_id,
           entry_id := entry_id, timestamp := now,
           compliance_score := d.overall_compliance_score }]
      total_stored := b.total_stored + 1 }
  if should_compact b1 then (compact_memory b1 now, entry_id) else (b1, entry_id)

/-- memory_bank.py lines 87-114: filter the company entries by a cutoff
lookback_days before now, newest first.  Unknown companies give []. -/
def retrieve_compliance_history (b : MemoryBank) (company_id : String)
    (lookback_days : Nat) (now : Nat) : List MemoryEntry :=
  match alLookup b.memory_store company_id with
  | none => []
  | some entries =>
    let cutoff := now - lookback_days * 86400000000
    List.insertionSort tsGE (entries.filter (fun e => decide (cutoff ≤ e.timestamp)))

/-- First-occurrence deduplication, the key order of a Python Counter (its
keys appear in first-seen order). -/
def dedupFirst {α : Type} [BEq α] (l : List α) : List α :=
  l.foldl (fun acc x => if acc.any (fun y => y == x) then acc else acc ++ [x]) []

/-- Counter(l).most_common(n): pairs (element, multiplicity), sorted by
multiplicity descending; CPython uses a stable sort, so ties stay in
first-seen order. -/
def counterMostCommon {α : Type} [BEq α] (l : List α) (n : Nat) : List (α × Nat) :=
  (List.insertionSort (fun a b => b.2 ≤ a.2)
    ((dedupFirst l).map (fun k => (k, l.count k)))).take n

/-- A stand-in for the Python str() rendering of a gap list that is
interpolated into the improvement-area text (memory_bank.py line 301).  The
exact text, a Python repr, is irrelevant to every claim; the model renders
the string fields of each gap. -/
def gapListStr (gl : List Gap) : String :=
  "[" ++ String.intercalate ", "
    (gl.map (fun g => g.regulation ++ "/" ++ g.gap_type ++ "/" ++ g.severity
      ++ "/" ++ g.description)) ++ "]"

/-- memory_bank.py lines 284-303. -/
def identify_improvement_areas (history : List MemoryEntry) : List String :=
  if history.isEmpty then []
  else
    let all_gaps := history.foldl (fun acc e => acc ++ e.key_findings.high_priority_gaps) []
    ((counterMostCommon all_gaps 3).filter (fun p => decide (p.2 ≥ 2))).map
      (fun p => "Address recurring gap: " ++ gapListStr p.1)

/-- The trend report returned by get_compliance_trends on the non-error path
(memory_bank.py lines 153-164).  average_score is Python float division,
modelled exactly as a rational. -/
structure TrendReport where
  company_id : String
  analysis_period : String
  current_score : Int
  average_score : ℚ
  score_trend : String
  risk_trend : String
  recurring_gaps : List (List Gap)
  improvement_areas : List String
  confidence_in_trends : Nat
deriving DecidableEq

/-- get_compliance_trends returns either the error dict of line 129 or a
trend report. -/
inductive TrendsResult where
  | err (msg : String)
  | ok (r : TrendReport)
deriving DecidableEq

def TrendsResult.scoreTrend? : TrendsResult → Option String
  | .err _ => none
  | .ok r => some r.score_trend

/-- memory_bank.py lines 116-164: trends over the 180-day window.  The
outer Except models Python exceptions: after the trend labels are computed,
line 150 calls Counter(all_gaps), which hashes every element of all_gaps;
those elements are the LISTS collected into high_priority_gaps by
_extract_key_findings (the values of the gap_breakdown dict), and Python
lists are unhashable, so whenever all_gaps is non-empty the call raises
TypeError and nothing is returned.  On an empty all_gaps both Counter calls
see an empty sequence and succeed.  The returned error DICT of line 129 for
an empty history is a normal return, modelled inside TrendsResult. -/
def get_compliance_trends (b : MemoryBank) (company_id : String) (now : Nat) :
    Except String TrendsResult :=
  let history := retrieve_compliance_history b company_id 180 now
  if history.isEmpty then .ok (.err "No compliance history found")
  else
    let scores := history.map (fun e => e.compliance_score)
    let risk_scores := history.map (fun e => e.risk_score)
    let score_trend :=
      if scores.length ≥ 2 then
        if scores.headD 0 > scores.getLastD 0 then "improving"
        else if scores.headD 0 < scores.getLastD 0 then "declining"
        else "stable"
      else "insufficient_data"
    let risk_trend :=
      if scores.length ≥ 2 then
        if risk_scores.headD 0 < risk_scores.getLastD 0 then "improving"
        else if risk_scores.headD 0 > risk_scores.getLastD 0 then "declining"
        else "stable"
      else "insufficient_data"
    let all_gaps := history.foldl (fun acc e => acc ++ e.key_findings.high_priority_gaps) []
    if all_gaps.isEmpty then
      .ok (.ok
        { company_id := company_id
          analysis_period := "Last " ++ toString history.length ++ " assessments"
          current_score := scores.headD 0
          average_score :=
            if scores.isEmpty then 0 else ((scores.sum : Int) : ℚ) / (scores.length : ℚ)
          score_trend := score_trend
          risk_trend := risk_trend
          recurring_gaps := (counterMostCommon all_gaps 5).map Prod.fst
          improvement_areas := identify_improvement_areas history
          confidence_in_trends := min 95 (history.length * 10) })
    else .error "TypeError: unhashable type: list"

/-- The score_trend label, when the call returned a report. -/
def trendsScoreTrend? (r : Except String TrendsResult) : Option String :=
  match r with
  | .ok t => t.scoreTrend?
  | .error _ => none

/-! ## Session manager (src/memory/session_manager.py, class SessionManager) -/

/-- The values held in the nested mutable session context dict. -/
inductive PyVal where
  | vint (n : Int)
  | vstr (s : String)
  | vlist (l : List PyVal)
  | vdict (d : List (String × PyVal))

/-- Final metrics computed by _calculate_final_metrics (session_manager.py
lines 281-296).  The two averages are Python float divisions, modelled
exactly as rationals. -/
structure FinalMetrics where
  total_agents_used : Nat
  total_interactions : Nat
  average_processing_time : ℚ
  session_duration_minutes : ℚ
  success_rate : Nat

/-- One session record (session_manager.py lines 62-81), the context dict
modelled as a Python dict of PyVal and the metrics dict split into fields. -/
structure Session where
  session_id : String
  company_id : String
  workflow_type : String
  created_at : Nat
  last_activity : Nat
  status : String
  context : List (String × PyVal)
  agents_used : List String
  processing_time : Nat
  data_points_collected : Nat
  ended_at : Option Nat := none
  final_metrics : Option FinalMetrics := none

/-- State of SessionManager (session_manager.py lines 20-27); defaults are
the constructor defaults. -/
structure SessionManager where
  session_timeout_minutes : Nat := 60
  max_sessions : Nat := 1000
  active_sessions : List (String × Session) := []
  session_history : List (String × Session) := []

/-- session_manager.py lines 49-87.  The fresh uuid4 is injected as sid. -/
def create_session (sm : SessionManager) (sid : String) (company_id : String)
    (workflow_type : String) (now : Nat) : SessionManager × String :=
  let s : Session :=
    { session_id := sid
      company_id := company_id
      workflow_type := workflow_type
      created_at := now
      last_activity := now
      status := "active"
      context :=
        [("current_step", .vstr "initialized"),
         ("workflow_progress", .vint 0),
         ("agent_interactions", .vlist []),
         ("compliance_data", .vdict []),
         ("errors_encountered", .vlist [])]
      agents_used := []
      processing_time := 0
      data_points_collected := 0 }
  ({ sm with active_sessions := alSet sm.active_sessions sid s }, sid)

/-- session_manager.py lines 89-106: an active session is returned after its
last_activity is touched; otherwise the session HISTORY is consulted, so
ended sessions are still returned (untouched). -/
def get_session (sm : SessionManager) (sid : String) (now : Nat) :
    SessionManager × Option Session :=
  match alLookup sm.active_sessions sid with
  | some s =>
    let s' := { s with last_activity := now }
    ({ sm with active_sessions := alSet sm.active_sessions sid s' }, some s')
  | none => (sm, alLookup sm.session_history sid)

/-- The dict.update of one incoming dict value into an existing dict value
(session_manager.py line 127). -/
def pyDictMerge (dOld dNew : List (String × PyVal)) : List (String × PyVal) :=
  dNew.foldl (fun acc p => alSet acc p.1 p.2) dOld

/-- The merge loop of update_session_context lines 125-129: when both the
existing and the incoming value are dicts their keys are merged, otherwise
the incoming value overwrites. -/
def mergeContext (ctx updates : List (String × PyVal)) : List (String × PyVal) :=
  updates.foldl
    (fun acc p =>
      match alLookup acc p.1, p.2 with
      | some (.vdict dOld), .vdict dNew => alSet acc p.1 (.vdict (pyDictMerge dOld dNew))
      | _, _ => alSet acc p.1 p.2)
    ctx

/-- session_manager.py lines 108-134.  The session object returned by
get_session is mutated in place, so the change lands in whichever map holds
the session: the active map, or the HISTORY map for an ended session, where
the update also succeeds and returns True.  Line 131 touches last_activity
in both cases. -/
def update_session_context (sm : SessionManager) (sid : String)
    (updates : List (String × PyVal)) (now : Nat) : SessionManager × Bool :=
  match alLookup sm.active_sessions sid with
  | some s =>
    let s' := { s with context := mergeContext s.context updates, last_activity := now }
    ({ sm with active_sessions := alSet sm.active_sessions sid s' }, true)
  | none =>
    match alLookup sm.session_history sid with
    | some s =>
      let s' := { s with context := mergeContext s.context updates, last_activity := now }
      ({ sm with session_history := alSet sm.session_history sid s' }, true)
    | none => (sm, false)

/-- session_manager.py lines 136-169.  When the session id is unknown the
function returns False before anything else happens.  When a session IS
found, building the interaction record at line 159 evaluates
random.randint(100, 5000) - but the module never imports random (its imports
are asyncio, logging, typing, datetime, uuid), so the call raises
NameError: name random is not defined.  The two summaries computed before it
are pure, so the only state change already performed is the last_activity
touch done by get_session on an active session; lines 162-169 (appending the
interaction and advancing workflow_progress) are unreachable. -/
def record_agent_interaction (sm : SessionManager) (sid : String)
    (_agent_name : String) (_input_data _output_data : PyVal) (now : Nat) :
    SessionManager × Except String Bool :=
  match alLookup sm.active_sessions sid with
  | some s =>
    let s' := { s with last_activity := now }
    ({ sm with active_sessions := alSet sm.active_sessions sid s' },
     .error "NameError: name random is not defined")
  | none =>
    match alLookup sm.session_history sid with
    | some _ => (sm, .error "NameError: name random is not defined")
    | none => (sm, .ok false)

def sessionInteractions (s : Session) : List PyVal :=
  match alLookup s.context "agent_interactions" with
  | some (.vlist l) => l
  | _ => []

def interactionTime (v : PyVal) : Int :=
  match v with
  | .vdict d =>
    match alLookup d "processing_time_ms" with
    | some (.vint n) => n
    | _ => 0
  | _ => 0

/-- session_manager.py lines 281-296.  In every state reachable from
create_session the context key agent_interactions still holds a list (no
interaction is ever appended, because record_agent_interaction raises
first), so reading it through sessionInteractions is exact there. -/
def calculate_final_metrics (s : Session) (ended : Nat) : FinalMetrics :=
  let interactions := sessionInteractions s
  { total_agents_used := (dedupFirst s.agents_used).length
    total_interactions := interactions.length
    average_processing_time :=
      if interactions.length = 0 then 0
      else ((interactions.map interactionTime).sum : ℚ) / (interactions.length : ℚ)
    session_duration_minutes := ((ended : ℚ) - (s.created_at : ℚ)) / 60000000
    success_rate := if s.status == "completed" then 100 else 0 }

/-- session_manager.py lines 171-196: pop from the active map; set ended_at,
status and final metrics; move the record to the history map. -/
def end_session (sm : SessionManager) (sid : String) (status : String)
    (now : Nat) : SessionManager × Bool :=
  match alLookup sm.active_sessions sid with
  | none => (sm, false)
  | some s =>
    let s1 : Session := { s with ended_at := some now, status := status }
    let s2 : Session := { s1 with final_metrics := some (calculate_final_metrics s1 now) }
    ({ sm with
        active_sessions := alRemove sm.active_sessions sid
        session_history := alSet sm.session_history sid s2 }, true)

/-- session_manager.py lines 309-326: every active session idle strictly
longer than the timeout is ended with status timeout.  The float comparison
seconds / 60 with the timeout in minutes is exact over the integers. -/
def cleanup_expired_sessions (sm : SessionManager) (now : Nat) : SessionManager :=
  let expired :=
    (sm.active_sessions.filter
      (fun p => decide (now - p.2.last_activity > sm.session_timeout_minutes * 60000000))).map
      Prod.fst
  expired.foldl (fun acc sid => (end_session acc sid "timeout" now).1) sm

/-! ## Monitor agent (src/agents/monitor_agent.py, class RegulationMonitorAgent) -/

/-- One value of the regulatory_data dict assembled by
gather_regulatory_data.  Optional fields are the keys the source only sets
on some paths. -/
structure RegEntry where
  regulation : String
  error : Option String := none
  status : Option String := none
  last_updated : Option String := none
  source : Option String := none
  version : Option String := none
  content : List String := []
  compliance_deadline : Option String := none
  jurisdiction : Option String := none
  description : Option String := none
deriving DecidableEq

/-- monitor_agent.py lines 65-121.  The whole body runs inside
try/except Exception, so when the simulated API call raises (the injected
apiFailure oracle, str of the exception), the function CATCHES it and
RETURNS the dict of line 121 - it does not re-raise.  Consequently
_fetch_regulation_data never raises an Exception to its caller. -/
def fetch_regulation_data (regulation : String) (apiFailure : Option String)
    (today : String) : RegEntry :=
  match apiFailure with
  | some e => { regulation := regulation, error := some e }
  | none =>
    let base : RegEntry :=
      { regulation := regulation
        last_updated := some today
        source := some "ComplianceGuard AI Regulatory Database"
        version := some "2025.1" }
    if regulation.toUpper == "GDPR" then
      { base with
        content :=
          ["Article 5 - Data processing principles",
           "Article 6 - Lawfulness of processing",
           "Article 17 - Right to erasure",
           "Article 30 - Records of processing"]
        compliance_deadline := some "Ongoing"
        jurisdiction := some "European Union" }
    else if regulation.toUpper == "HIPAA" then
      { base with
        content :=
          ["Privacy Rule - PHI protection",
           "Security Rule - Safeguards",
           "Breach Notification Rule"]
        compliance_deadline := some "Ongoing"
        jurisdiction := some "United States" }
    else if regulation.toUpper == "SOX" then
      { base with
        content :=
          ["Section 302 - Financial reporting",
           "Section 404 - Internal controls",
           "Section 409 - Real-time disclosure"]
        compliance_deadline := some "Annual"
        jurisdiction := some "Multiple" }
    else
      { base with
        description := some ("General compliance requirements for " ++ regulation)
        compliance_deadline := some "To be determined"
        jurisdiction := some "Multiple" }

/-- Return value of gather_regulatory_data (monitor_agent.py lines 58-63). -/
structure GatherResult where
  regulatory_data : List (String × RegEntry)
  timestamp : Nat
  sources_checked : Nat
  successful_fetches : Nat
deriving DecidableEq

/-- monitor_agent.py lines 32-63.  The per-regulation results are collected
with return_exceptions=True; the branch at lines 49-51 that would record an
entry with status failed only fires for an Exception ESCAPING
_fetch_regulation_data, which its internal catch-all prevents, so every
entry - including one whose fetch failed and carries the error field - takes
the else branch at lines 52-54 and gets status success. -/
def gather_regulatory_data (sources : List String)
    (apiFailure : String → Option String) (today : String) (now : Nat) :
    GatherResult :=
  let data := sources.map
    (fun r => (r, { fetch_regulation_data r (apiFailure r) today with status := some "success" }))
  { regulatory_data := data
    timestamp := now
    sources_checked := sources.length
    successful_fetches := (data.filter (fun p => p.2.status == some "success")).length }

/-! ## Analyzer agent (src/agents/analyzer_agent.py, class ComplianceAnalyzerAgent) -/

/-- The random draws of _generate_recommendations for one gap:
estimated_effort and timeline from random.choice, the impact percentage from
random.randint(5, 15). -/
structure RecRand where
  effort : String
  timeline : String
  impactPct : Nat

/-- The random draws of analyze_compliance: the initial overall_score from
randint(70, 95), the per-regulation score from randint(65, 98), the gap list
produced by _identify_compliance_gaps (whose composition is entirely
random.sample / random.choice), and the confidence from randint(85, 98). -/
structure AnalyzerRandom where
  initial_overall : Nat
  reg_score : String → Nat
  gaps : String → List Gap
  confidence : Nat

/-- analyzer_agent.py lines 97-119. -/
def generate_recommendations (regulation : String) (score : Nat)
    (gaps : List Gap) (rr : Gap → RecRand) : List Recommendation :=
  let priority := if score < 80 then "high" else if score < 90 then "medium" else "low"
  gaps.map (fun g =>
    { regulation := regulation
      priority := priority
      action := "Address " ++ (g.gap_type.replace "_" " ") ++ " gap"
      estimated_effort := (rr g).effort
      timeline := (rr g).timeline
      impact := "Increase " ++ regulation ++ " compliance score by "
        ++ toString (rr g).impactPct ++ "%" })

/-- The risk_assessment sub-object of an analysis
(analyzer_agent.py lines 121-141). -/
structure CompRisk where
  risk_level : String
  confidence_score : Nat
  key_risks : List Gap
  monitoring_recommendations : List String
deriving DecidableEq

/-- analyzer_agent.py lines 121-141, reading the overall score already
written into the results dict. -/
def assess_compliance_risk (overall : Nat) (gap_analysis : List Gap)
    (confidence : Nat) : CompRisk :=
  { risk_level := if overall ≥ 90 then "low" else if overall ≥ 75 then "medium" else "high"
    confidence_score := confidence
    key_risks := gap_analysis.filter (fun g => g.severity == "high")
    monitoring_recommendations :=
      ["Continuous compliance monitoring",
       "Regular policy reviews",
       "Employee training updates"] }

/-- The AnalysisResult dict (analyzer_agent.py lines 35-42). -/
structure Analysis where
  overall_score : Nat
  regulation_scores : List (String × Nat)
  gap_analysis : List Gap
  recommendations : List Recommendation
  risk_assessment : CompRisk
deriving DecidableEq

/-- analyzer_agent.py lines 28-71.  Only regulations whose entry has status
success are scored (line 46); the overall score starts as randint(70, 95)
and is overwritten at line 61 by integer floor division sum // len when any
regulation was scored.  company_data only feeds the (fully random) gap
generation, so it does not appear. -/
def analyze_compliance (regulatory_data : List (String × RegEntry))
    (rnd : AnalyzerRandom) (rr : Gap → RecRand) : Analysis :=
  let successes := regulatory_data.filter (fun p => p.2.status == some "success")
  let regulation_scores := successes.map (fun p => (p.1, rnd.reg_score p.1))
  let gap_analysis := successes.foldl (fun acc p => acc ++ rnd.gaps p.1) []
  let recommendations := successes.foldl
    (fun acc p => acc ++ generate_recommendations p.1 (rnd.reg_score p.1) (rnd.gaps p.1) rr) []
  let overall :=
    if regulation_scores.isEmpty then rnd.initial_overall
    else (regulation_scores.map Prod.snd).sum / regulation_scores.length
  { overall_score := overall
    regulation_scores := regulation_scores
    gap_analysis := gap_analysis
    recommendations := recommendations
    risk_assessment := assess_compliance_risk overall gap_analysis rnd.confidence }

/-! ## Risk agent (src/agents/risk_agent.py, class RiskAssessmentAgent) -/

/-- risk_agent.py lines 78-80. -/
def calculate_risk_score (compliance_score : Int) : Int :=
  max 0 (100 - compliance_score)

/-- risk_agent.py lines 82-91. -/
def get_risk_level (score : Nat) : String :=
  if score ≥ 90 then "low"
  else if score ≥ 75 then "medium"
  else if score ≥ 60 then "high"
  else "critical"

/-- risk_agent.py lines 93-101.  The float weights 1.2, 1.1, 1.15 are
modelled as the exact rationals they denote. -/
def calculate_weighted_risk (regulation : String) (score : Nat) : ℚ :=
  let weight : ℚ :=
    if regulation.toUpper == "GDPR" then 6 / 5
    else if regulation.toUpper == "HIPAA" then 11 / 10
    else if regulation.toUpper == "SOX" then 23 / 20
    else 1
  ((100 : ℚ) - (score : ℚ)) * weight

structure RiskFactor where
  factor_type : String
  count : Option Nat := none
  impact : String
  description : String
  probability : Option String := none
deriving DecidableEq

/-- risk_agent.py lines 103-143. -/
def identify_risk_factors (gaps : List Gap) : List RiskFactor :=
  let high_gaps := gaps.filter (fun g => g.severity == "high")
  let medium_gaps := gaps.filter (fun g => g.severity == "medium")
  let fromHigh : List RiskFactor :=
    if high_gaps.isEmpty then []
    else
      [{ factor_type := "high_severity_gaps", count := some high_gaps.length,
         impact := "high",
         description := toString high_gaps.length ++ " high severity compliance gaps identified" }]
  let fromMedium : List RiskFactor :=
    if medium_gaps.isEmpty then []
    else
      [{ factor_type := "medium_severity_gaps", count := some medium_gaps.length,
         impact := "medium",
         description := toString medium_gaps.length ++ " medium severity compliance gaps identified" }]
  fromHigh ++ fromMedium ++
    [{ factor_type := "regulatory_changes", impact := "medium",
       description := "Potential regulatory changes in next 6 months",
       probability := some "medium" },
     { factor_type := "staff_training", impact := "low",
       description := "Compliance training completion rate below target",
       probability := some "high" }]

structure Mitigation where
  risk_type : String
  strategy : String
  priority : String
  timeline : String
  resources_needed : List String
deriving DecidableEq

/-- risk_agent.py lines 145-175: one strategy per recognized factor type,
in factor order; staff_training factors produce none. -/
def generate_mitigation_strategies (risk_factors : List RiskFactor) : List Mitigation :=
  risk_factors.foldl
    (fun acc r =>
      if r.factor_type == "high_severity_gaps" then
        acc ++ [{ risk_type := r.factor_type, strategy := "Immediate gap remediation",
                  priority := "critical", timeline := "30 days",
                  resources_needed := ["compliance_team", "technical_staff", "budget"] }]
      else if r.factor_type == "medium_severity_gaps" then
        acc ++ [{ risk_type := r.factor_type, strategy := "Phased gap remediation",
                  priority := "high", timeline := "90 days",
                  resources_needed := ["compliance_team", "department_heads"] }]
      else if r.factor_type == "regulatory_changes" then
        acc ++ [{ risk_type := r.factor_type, strategy := "Enhanced regulatory monitoring",
                  priority := "medium", timeline := "Ongoing",
                  resources_needed := ["monitoring_tools", "legal_review"] }]
      else acc)
    []

structure ComplianceHealth where
  status : String
  score : Nat
  trend : String
  next_review_recommended : String
deriving DecidableEq

/-- risk_agent.py lines 177-195; the trend is random.choice (injected) and
the review date is a formatted now + 30 days (injected). -/
def assess_compliance_health (overall_score : Nat) (trendChoice : String)
    (reviewDate : String) : ComplianceHealth :=
  { status :=
      if overall_score ≥ 90 then "excellent"
      else if overall_score ≥ 80 then "good"
      else if overall_score ≥ 70 then "fair"
      else "poor"
    score := overall_score
    trend := trendChoice
    next_review_recommended := reviewDate }

structure RiskScenario where
  scenario : String
  probability : String
  timeframe : String
  potential_impact : String
  preparation_recommendation : String
deriving DecidableEq

/-- The RiskAssessment dict (risk_agent.py lines 33-41). -/
structure Risk where
  overall_risk_score : Int
  risk_breakdown : List (String × Nat × String × ℚ)
  risk_factors : List RiskFactor
  mitigation_strategies : List Mitigation
  compliance_health : ComplianceHealth
  predicted_risks : List RiskScenario
  timestamp : Nat
deriving DecidableEq

/-- risk_agent.py lines 27-76.  The random draws of _assess_compliance_health
and _predict_future_risks (a random.sample of 2 from 3 static scenarios) are
injected. -/
def assess_risk (analysis : Analysis) (trendChoice : String)
    (reviewDate : String) (predicted : List RiskScenario) (now : Nat) : Risk :=
  let factors := identify_risk_factors analysis.gap_analysis
  { overall_risk_score := calculate_risk_score (analysis.overall_score : Int)
    risk_breakdown := analysis.regulation_scores.map
      (fun p => (p.1, p.2, get_risk_level p.2, calculate_weighted_risk p.1 p.2))
    risk_factors := factors
    mitigation_strategies := generate_mitigation_strategies factors
    compliance_health := assess_compliance_health analysis.overall_score trendChoice reviewDate
    predicted_risks := predicted
    timestamp := now }

/-! ## Orchestrator (src/agents/orchestrator.py, class ComplianceOrchestrator) -/

/-- One workflow history record (orchestrator.py lines 95-103 on success,
lines 120-127 on failure).  The success record has the two scores and no
error key; the failure record has the error and no scores.
duration_seconds is a float, modelled exactly as a rational. -/
structure WorkflowRecord where
  workflow_id : String
  company_id : String
  duration_seconds : ℚ
  final_score : Option Nat := none
  risk_score : Option Int := none
  error : Option String := none
  timestamp : Nat
  status : String
deriving DecidableEq

/-- The dict returned to the caller on success (orchestrator.py
lines 109-115). -/
structure WorkflowResult where
  workflow_id : String
  report : ComplianceData
  analysis : Analysis
  risk_assessment : Risk
  workflow_metrics : WorkflowRecord
deriving DecidableEq

/-- The outcome of each awaited call inside execute_compliance_check, seen
from the orchestrator: each stage either returns a value or raises.  The
memory-bank store call is likewise an outcome, since the claim under test
quantifies over runs in which it raises. -/
structure StageOutcomes where
  gather : Except String GatherResult
  collect : Except String (List (String × PyVal))
  analyze : Except String Analysis
  assess : Except String Risk
  report : Except String ComplianceData
  store : Except String String

/-- The workflow id of line 47, strftime at second granularity. -/
def mkWorkflowId (t_start : Nat) : String :=
  "WF-" ++ toString (t_start / 1000000)

/-- The failure record appended at lines 120-129 before the error is
re-raised. -/
def failedRecord (wf_id cid : String) (e : String) (t_start : Nat) (dur : ℚ) :
    WorkflowRecord :=
  { workflow_id := wf_id, company_id := cid, duration_seconds := dur,
    error := some e, timestamp := t_start, status := "failed" }

/-- orchestrator.py lines 42-130.  ALL of steps 1-4 run inside one try
block: the gather/collect fan-out, the sequential analyze, assess and report
stages, and - when a memory bank is configured - the
memory_bank.store_compliance_check call of lines 86-90.  Any exception from
any of them, including a storage failure, reaches the except handler at
line 117, which appends a record with status failed and re-raises.  Only
when every awaited call succeeds is the completed record of lines 95-103
appended and the result dict returned.  When both concurrent collection
branches fail, asyncio.gather propagates whichever raised first; the model
propagates the monitor branch (the claims only concern runs where at most
one call fails).  The wall-clock now at completion or failure is t_end. -/
def execute_compliance_check (memory_bank_present : Bool) (o : StageOutcomes)
    (company_id : Option String) (hist : List WorkflowRecord)
    (t_start t_end : Nat) : List WorkflowRecord × Except String WorkflowResult :=
  let wf_id := mkWorkflowId t_start
  let cid := company_id.getD "unknown"
  let dur : ℚ := ((t_end : ℚ) - (t_start : ℚ)) / 1000000
  let fail := fun (e : String) =>
    (hist ++ [failedRecord wf_id cid e t_start dur], (.error e : Except String WorkflowResult))
  match o.gather with
  | .error e => fail e
  | .ok _ =>
    match o.collect with
    | .error e => fail e
    | .ok _ =>
      match o.analyze with
      | .error e => fail e
      | .ok analysis =>
        match o.assess with
        | .error e => fail e
        | .ok risk =>
          match o.report with
          | .error e => fail e
          | .ok rep =>
            let storeOutcome : Except String Unit :=
              if memory_bank_present then o.store.map (fun _ => ()) else .ok ()
            match storeOutcome with
            | .error e => fail e
            | .ok _ =>
              let record : WorkflowRecord :=
                { workflow_id := wf_id, company_id := cid, duration_seconds := dur,
                  final_score := some analysis.overall_score,
                  risk_score := some risk.overall_risk_score,
                  timestamp := t_start, status := "completed" }
              (hist ++ [record],
               .ok { workflow_id := wf_id, report := rep, analysis := analysis,
                     risk_assessment := risk, workflow_metrics := record })

/-! ## Helper lemmas -/

/-- The clamp function named by the specification. -/
def clamp (x lo hi : Int) : Int := min hi (max lo x)

theorem string_append_left_cancel {a x y : String} (h : a ++ x = a ++ y) :
    x = y := by
  have hd : (a ++ x).data = (a ++ y).data := by rw [h]
  simp only [String.data_append] at hd
  exact String.ext (List.append_cancel_left hd)

theorem mkEntryId_ne (c : String) (t1 t2 : Nat)
    (h : toString (t1 / 1000000) ≠ toString (t2 / 1000000)) :
    mkEntryId c t1 ≠ mkEntryId c t2 := by
  intro he
  unfold mkEntryId at he
  rw [String.append_assoc, String.append_assoc, String.append_assoc,
    String.append_assoc] at he
  exact h (string_append_left_cancel (string_append_left_cancel
    (string_append_left_cancel he)))

theorem find?_map_set {β : Type} (k : String) (v : β) :
    ∀ l : List (String × β), l.any (fun p => p.1 == k) = true →
      (l.map (fun p => if p.1 == k then (k, v) else p)).find?
        (fun p => p.1 == k) = some (k, v)
  | [], h => by simp at h
  | p :: t, h => by
    by_cases hp : p.1 == k
    · rw [List.map_cons, if_pos hp, List.find?_cons_of_pos]
      simp
    · have ht : t.any (fun p => p.1 == k) = true := by
        simpa [List.any_cons, hp] using h
      rw [List.map_cons, if_neg hp, List.find?_cons_of_neg _ (by simpa using hp)]
      exact find?_map_set k v t ht

theorem alLookup_alSet_self {β : Type} (l : List (String × β)) (k : String)
    (v : β) : alLookup (alSet l k v) k = some v := by
  unfold alSet
  by_cases h : l.any (fun p => p.1 == k)
  · rw [if_pos h]
    unfold alLookup
    rw [find?_map_set k v l h]
    rfl
  · rw [if_neg h]
    unfold alLookup
    have hnone : l.find? (fun p => p.1 == k) = none := by
      rw [List.find?_eq_none]
      intro p hp hcontra
      exact h (List.any_eq_true.mpr ⟨p, hp, hcontra⟩)
    rw [List.find?_append, hnone]
    simp [List.find?]

/-! ## Claim C7 -/

/-- Claim C7: for every AnalysisResult input, the RiskAssessment returned by
assess_risk has overall_risk_score equal to clamp(100 - overall_score, 0,
100) before any per-tool adjustment factor is applied (the per-regulation
weights only enter risk_breakdown, never the overall score), and
overall_risk_score always lies within [0, 100]. -/
theorem C7_risk_score_clamp (analysis : Analysis) (trendChoice reviewDate : String)
    (predicted : List RiskScenario) (now : Nat) :
    (assess_risk analysis trendChoice reviewDate predicted now).overall_risk_score
        = clamp (100 - (analysis.overall_score : Int)) 0 100 ∧
    0 ≤ (assess_risk analysis trendChoice reviewDate predicted now).overall_risk_score ∧
    (assess_risk analysis trendChoice reviewDate predicted now).overall_risk_score ≤ 100 := by
  have h0 : (0 : Int) ≤ (analysis.overall_score : Int) := Int.natCast_nonneg _
  have hval : (assess_risk analysis trendChoice reviewDate predicted now).overall_risk_score
      = max 0 (100 - (analysis.overall_score : Int)) := rfl
  rw [hval]
  unfold clamp
  omega

/-! ## Claim C8 -/

/-- Claim C8: for every AnalysisResult produced by analyze_compliance,
0 ≤ overall_score ≤ 100, and whenever regulation_scores is non-empty,
overall_score equals the floor of the mean of the values of
regulation_scores.  The random draws are the injected oracle; the ranges of
the randint calls of analyzer_agent.py lines 36 and 47 are hypotheses. -/
theorem C8_overall_score_floor_mean (regulatory_data : List (String × RegEntry))
    (rnd : AnalyzerRandom) (rr : Gap → RecRand)
    (h0 : 70 ≤ rnd.initial_overall) (h1 : rnd.initial_overall ≤ 95)
    (h2 : ∀ r, 65 ≤ rnd.reg_score r) (h3 : ∀ r, rnd.reg_score r ≤ 98) :
    (0 ≤ (analyze_compliance regulatory_data rnd rr).overall_score ∧
      (analyze_compliance regulatory_data rnd rr).overall_score ≤ 100) ∧
    ((analyze_compliance regulatory_data rnd rr).regulation_scores ≠ [] →
      (analyze_compliance regulatory_data rnd rr).overall_score =
        ⌊((((analyze_compliance regulatory_data rnd rr).regulation_scores.map
            Prod.snd).sum : ℚ) /
          (((analyze_compliance regulatory_data rnd rr).regulation_scores.map
            Prod.snd).length : ℚ))⌋₊) := by
  set sc := (regulatory_data.filter (fun p => p.2.status == some "success")).map
    (fun p => (p.1, rnd.reg_score p.1)) with hsc
  have hrs : (analyze_compliance regulatory_data rnd rr).regulation_scores = sc := rfl
  have hov : (analyze_compliance regulatory_data rnd rr).overall_score
      = if sc.isEmpty then rnd.initial_overall
        else (sc.map Prod.snd).sum / sc.length := rfl
  set vals := sc.map Prod.snd with hvals
  have hmem : ∀ x ∈ vals, 65 ≤ x ∧ x ≤ 98 := by
    intro x hx
    rw [hvals, hsc] at hx
    simp only [List.map_map, List.mem_map] at hx
    obtain ⟨p, _, hp⟩ := hx
    subst hp
    exact ⟨h2 _, h3 _⟩
  constructor
  · constructor
    · exact Nat.zero_le _
    · rw [hov]
      by_cases he : sc = []
      · rw [if_pos (by simp [he])]; omega
      · rw [if_neg (by simpa using he)]
        have hlen : 0 < sc.length := List.length_pos.mpr he
        have hlen' : vals.length = sc.length := List.length_map _ _
        have hsum : vals.sum ≤ 98 * vals.length := by
          have := List.sum_le_card_nsmul vals 98 (fun x hx => (hmem x hx).2)
          simpa [Nat.mul_comm] using this
        have hdiv : vals.sum / sc.length ≤ (98 * vals.length) / sc.length :=
          Nat.div_le_div_right hsum
        rw [hlen'] at hdiv
        rw [Nat.mul_div_cancel _ hlen] at hdiv
        omega
  · intro hne
    rw [hrs] at hne
    rw [hov, hrs, if_neg (by simpa using hne)]
    have hlen' : vals.length = sc.length := List.length_map _ _
    rw [← hvals, ← hlen']
    exact (Nat.floor_div_eq_div (α := ℚ) vals.sum vals.length).symm

/-- Fixed random draws used by concrete instances. -/
def rrConst : Gap → RecRand :=
  fun _ => { effort := "low", timeline := "30 days", impactPct := 10 }

def rndC8 : AnalyzerRandom :=
  { initial_overall := 80, reg_score := fun _ => 70, gaps := fun _ => [],
    confidence := 90 }

def regDataC8 : List (String × RegEntry) :=
  [("GDPR", { regulation := "GDPR", status := some "success" })]

/-- Witness for C8 at a concrete one-regulation input: the hypotheses hold
for the fixed oracles and the bound follows from the theorem. -/
theorem C8_overall_score_floor_mean_witness :
    (analyze_compliance regDataC8 rndC8 rrConst).overall_score ≤ 100 ∧
    (analyze_compliance regDataC8 rndC8 rrConst).overall_score = 70 :=
  ⟨(C8_overall_score_floor_mean regDataC8 rndC8 rrConst (by decide) (by decide)
      (by intro r; show (65 : Nat) ≤ 70; decide)
      (by intro r; show (70 : Nat) ≤ 98; decide)).1.2, by decide⟩

/-! ## Claim C1 -/

/-- A small fully successful report payload used by concrete instances. -/
def exReport : ComplianceData :=
  { overall_compliance_score := 80, overall_risk_score := 20,
    compliance_status := "good", regulation_performance := [],
    gap_breakdown := [], immediate_actions := [] }

def exAnalysisC1 : Analysis := analyze_compliance regDataC8 rndC8 rrConst

def exRiskC1 : Risk := assess_risk exAnalysisC1 "stable" "2025-02-01" [] 0

def exGatherC1 : GatherResult :=
  gather_regulatory_data ["GDPR"] (fun _ => none) "2025-01-01" 0

/-- A run in which all four stages succeed and only the memory-bank store
raises. -/
def exOutcomesC1 : StageOutcomes :=
  { gather := .ok exGatherC1, collect := .ok [], analyze := .ok exAnalysisC1,
    assess := .ok exRiskC1, report := .ok exReport,
    store := .error "Simulated storage failure" }

/-- Claim C1 is false on the code: in a run where all four stages succeed
and store_compliance_check raises during the Persisting step, the exception
reaches the catch-all handler (the store call sits inside the same try
block, orchestrator.py lines 49-90 and 117-130), so the appended workflow
record has status failed - not completed - and the error propagates to the
caller instead of being swallowed. -/
theorem C1_storage_failure_not_swallowed_cex :
    (execute_compliance_check true exOutcomesC1 (some "acme-1") [] 0 0).2
      = Except.error "Simulated storage failure" ∧
    ((execute_compliance_check true exOutcomesC1 (some "acme-1") [] 0 0).1.map
      WorkflowRecord.status) = ["failed"] := by
  exact ⟨rfl, rfl⟩

/-- Claim C1 (amended): for every workflow run in which all four stages
succeed, if the memory-bank store call raises during the Persisting step
then execute_compliance_check appends exactly one workflow record, with
status failed and the storage error recorded, and re-raises the storage
error to the caller - the storage failure is handled by the same catch-all
path as a stage failure, not swallowed. -/
theorem C1_storage_failure_records_failed (g : GatherResult)
    (c : List (String × PyVal)) (a : Analysis) (r : Risk)
    (rep : ComplianceData) (e : String) (company_id : Option String)
    (hist : List WorkflowRecord) (t_start t_end : Nat) :
    execute_compliance_check true
      { gather := .ok g, collect := .ok c, analyze := .ok a, assess := .ok r,
        report := .ok rep, store := .error e }
      company_id hist t_start t_end
      = (hist ++ [failedRecord (mkWorkflowId t_start) (company_id.getD "unknown")
          e t_start (((t_end : ℚ) - (t_start : ℚ)) / 1000000)], .error e) ∧
    (failedRecord (mkWorkflowId t_start) (company_id.getD "unknown") e t_start
        (((t_end : ℚ) - (t_start : ℚ)) / 1000000)).status = "failed" := by
  exact ⟨rfl, rfl⟩

/-! ## Claim C3 -/

/-- Claim C3 names a code bug: for a session id present in the active set,
record_agent_interaction is supposed to append one summarized interaction
and advance workflow_progress without raising, but session_manager.py never
imports random, so the random.randint call at line 159 raises NameError on
every invocation that finds the session.  This theorem evaluates the model
at the failing input: a freshly created active session. -/
theorem C3_record_interaction_raises :
    (record_agent_interaction
      ((create_session ({} : SessionManager) "sid-1" "acme-1" "compliance_check" 0).1)
      "sid-1" "regulation_monitor" (.vdict []) (.vdict []) 1000000).2
    = Except.error "NameError: name random is not defined" := rfl

/-! ## Claim C6 -/

/-- The error field of a fetched entry is exactly the injected failure:
the except branch returns the error dict, and every success branch leaves
error unset. -/
theorem fetch_error (r : String) (f : Option String) (today : String) :
    (fetch_regulation_data r f today).error = f := by
  unfold fetch_regulation_data
  cases f with
  | some e => rfl
  | none =>
    simp only []
    split
    · rfl
    · split
      · rfl
      · split
        · rfl
        · rfl

def apiFailC6 : String → Option String :=
  fun r => if r == "GDPR" then some "Simulated API failure" else none

/-- Claim C6 is false on the code: a failed regulation fetch is caught
INSIDE _fetch_regulation_data (monitor_agent.py lines 119-121), which
returns an error dict instead of re-raising; gather_regulatory_data then
takes the success branch at lines 52-54 and stamps the entry with status
success.  At a concrete input where the GDPR fetch fails, the GDPR entry
carries the error field but status success, not the status failed the claim
requires. -/
theorem C6_failed_fetch_status_cex :
    ((alLookup (gather_regulatory_data ["GDPR", "HIPAA"] apiFailC6
        "2025-01-01" 0).regulatory_data "GDPR").map RegEntry.status)
      = some (some "success") ∧
    ((alLookup (gather_regulatory_data ["GDPR", "HIPAA"] apiFailC6
        "2025-01-01" 0).regulatory_data "GDPR").map RegEntry.error)
      = some (some "Simulated API failure") ∧
    ((alLookup (gather_regulatory_data ["GDPR", "HIPAA"] apiFailC6
        "2025-01-01" 0).regulatory_data "HIPAA").map RegEntry.status)
      = some (some "success") ∧
    (gather_regulatory_data ["GDPR", "HIPAA"] apiFailC6 "2025-01-01"
        0).regulatory_data.length = 2 := by
  exact ⟨rfl, rfl, rfl, rfl⟩

/-- Claim C6 (amended): the gathering stage returns normally with exactly
one entry per configured regulation in order; a failure of one fetch is
recorded in the entry of that regulation through its error field while sibling
regulations are unaffected - but every entry, failed fetches included, is
recorded with status success, because the fetch catches its own exceptions
and the gather-level failed branch never fires. -/
theorem C6_partial_failure_recorded (sources : List String)
    (apiFailure : String → Option String) (today : String) (now : Nat) :
    (gather_regulatory_data sources apiFailure today now).regulatory_data.map
      Prod.fst = sources ∧
    ∀ p ∈ (gather_regulatory_data sources apiFailure today now).regulatory_data,
      p.2.status = some "success" ∧ p.2.error = apiFailure p.1 := by
  constructor
  · simp [gather_regulatory_data, Function.comp_def]
  · intro p hp
    simp only [gather_regulatory_data, List.mem_map] at hp
    obtain ⟨r, _, hpe⟩ := hp
    subst hpe
    exact ⟨rfl, fetch_error r (apiFailure r) today⟩

def entryC6 : String × RegEntry :=
  ("GDPR", { fetch_regulation_data "GDPR" (some "Simulated API failure")
    "2025-01-01" with status := some "success" })

/-- Witness for the amended C6 at a one-regulation input whose fetch
fails. -/
theorem C6_partial_failure_recorded_witness :
    entryC6.2.status = some "success" ∧
    entryC6.2.error = some "Simulated API failure" := by
  have h := (C6_partial_failure_recorded ["GDPR"]
    (fun _ => some "Simulated API failure") "2025-01-01" 0).2 entryC6 (by decide)
  simpa using h

/-! ## Claim C5 -/

theorem alLookup_cons_ne {β : Type} (p : String × β) (t : List (String × β))
    (k : String) (hp : (p.1 == k) = false) :
    alLookup (p :: t) k = alLookup t k := by
  unfold alLookup
  rw [List.find?_cons_of_neg _ (by simp [hp])]

theorem alLookup_cons_eq {β : Type} (p : String × β) (t : List (String × β))
    (k : String) (hp : (p.1 == k) = true) :
    alLookup (p :: t) k = some p.2 := by
  unfold alLookup
  rw [List.find?_cons, hp]
  rfl

theorem alSet_cons_ne {β : Type} (p : String × β) (t : List (String × β))
    (k : String) (v : β) (hp : (p.1 == k) = false) :
    alSet (p :: t) k v = p :: alSet t k v := by
  unfold alSet
  simp only [List.any_cons, hp, Bool.false_or]
  by_cases ht : t.any (fun q => q.1 == k)
  · rw [if_pos ht, if_pos ht, List.map_cons, if_neg (by simp [hp])]
  · rw [if_neg ht, if_neg ht, List.cons_append]

theorem alSet_cons_eq {β : Type} (p : String × β) (t : List (String × β))
    (k : String) (v : β) (hp : (p.1 == k) = true)
    (hk : k ∉ t.map Prod.fst) :
    alSet (p :: t) k v = (k, v) :: t := by
  unfold alSet
  rw [if_pos (by simp [List.any_cons, hp])]
  rw [List.map_cons, if_pos hp]
  congr 1
  have : ∀ q ∈ t, (if q.1 == k then (k, v) else q) = q := by
    intro q hq
    rw [if_neg]
    intro hqk
    exact hk (by
      have : q.1 = k := by simpa using hqk
      exact this ▸ List.mem_map_of_mem Prod.fst hq)
  calc t.map (fun q => if q.1 == k then (k, v) else q)
      = t.map id := List.map_congr_left (fun q hq => this q hq)
    _ = t := List.map_id t

theorem alSet_keys {β : Type} (l : List (String × β)) (k : String) (v : β) :
    (alSet l k v).map Prod.fst =
      if l.any (fun p => p.1 == k) then l.map Prod.fst
      else l.map Prod.fst ++ [k] := by
  unfold alSet
  split
  · rw [List.map_map]
    apply List.map_congr_left
    intro p _
    by_cases hp : (p.1 == k) = true
    · have : p.1 = k := by simpa using hp
      simp [hp, this]
    · simp only [Function.comp_apply]
      rw [if_neg hp]
  · simp

theorem alSet_keys_nodup {β : Type} (l : List (String × β)) (k : String)
    (v : β) (h : (l.map Prod.fst).Nodup) :
    ((alSet l k v).map Prod.fst).Nodup := by
  rw [alSet_keys]
  split
  · exact h
  · rename_i hany
    rw [List.nodup_append]
    refine ⟨h, List.nodup_singleton k, ?_⟩
    intro a ha hak
    rw [List.mem_singleton] at hak
    subst hak
    rw [List.mem_map] at ha
    obtain ⟨p, hp, hpa⟩ := ha
    exact hany (List.any_eq_true.mpr ⟨p, hp, by simp [hpa]⟩)

theorem sum_lengths_alSet {l : List (String × List MemoryEntry)} {k : String}
    (es : List MemoryEntry) (hkeys : (l.map Prod.fst).Nodup) :
    ((alSet l k ((alLookup l k).getD [] ++ es)).map (fun p => p.2.length)).sum
      = (l.map (fun p => p.2.length)).sum + es.length := by
  induction l with
  | nil =>
    simp [alSet, alLookup, List.find?]
  | cons p t ih =>
    rw [List.map_cons] at hkeys
    have hnd := List.nodup_cons.mp hkeys
    by_cases hp : (p.1 == k) = true
    · have hpk : p.1 = k := by simpa using hp
      have hk : k ∉ t.map Prod.fst := hpk ▸ hnd.1
      rw [alLookup_cons_eq p t k hp, alSet_cons_eq p t k _ hp hk]
      simp only [Option.getD_some, List.map_cons, List.sum_cons,
        List.length_append, List.length_cons]
      omega
    · have hp' : (p.1 == k) = false := by simpa using hp
      rw [alLookup_cons_ne p t k hp', alSet_cons_ne p t k _ hp']
      simp only [List.map_cons, List.sum_cons]
      rw [ih hnd.2]
      omega

/-- The returned entry id is the second-granularity id of line 46 on both
the compacting and the non-compacting path. -/
theorem store_snd (b : MemoryBank) (c : String) (d : ComplianceData) (t : Nat) :
    (store_compliance_check b c d t).2 = mkEntryId c t := by
  simp only [store_compliance_check]
  split <;> rfl

/-- When the post-append global count does not exceed max_entries,
store_compliance_check performs the pure append of memory_bank.py
lines 60-77 and skips compaction. -/
theorem store_no_compaction (b : MemoryBank) (c : String) (d : ComplianceData)
    (t : Nat) (hkeys : (b.memory_store.map Prod.fst).Nodup)
    (hmax : globalEntryCount b + 1 ≤ b.max_entries) :
    store_compliance_check b c d t =
      ({ b with
          memory_store := alSet b.memory_store c (entriesOf b c ++ [mkMemoryEntry c d t])
          audit_trail := b.audit_trail ++
            [{ action := "compliance_check_stored", company_id := c,
               entry_id := mkEntryId c t, timestamp := t,
               compliance_score := d.overall_compliance_score }]
          total_stored := b.total_stored + 1 }, mkEntryId c t) := by
  simp only [store_compliance_check]
  split
  · rename_i hsc
    exfalso
    simp only [should_compact, globalEntryCount, decide_eq_true_eq] at hsc
    rw [show (entriesOf b c ++ [mkMemoryEntry c d t])
        = ((alLookup b.memory_store c).getD [] ++ [mkMemoryEntry c d t])
        from rfl] at hsc
    rw [sum_lengths_alSet [mkMemoryEntry c d t] hkeys] at hsc
    simp only [List.length_cons, List.length_nil] at hsc
    have hcount : globalEntryCount b
        = (b.memory_store.map (fun p => p.2.length)).sum := rfl
    omega
  · rfl

/-- The appended counts and key sets after a non-compacting store. -/
theorem store_no_compaction_facts (b : MemoryBank) (c : String)
    (d : ComplianceData) (t : Nat)
    (hkeys : (b.memory_store.map Prod.fst).Nodup)
    (hmax : globalEntryCount b + 1 ≤ b.max_entries) :
    entriesOf (store_compliance_check b c d t).1 c
        = entriesOf b c ++ [mkMemoryEntry c d t] ∧
    globalEntryCount (store_compliance_check b c d t).1 = globalEntryCount b + 1 ∧
    (store_compliance_check b c d t).1.max_entries = b.max_entries ∧
    (store_compliance_check b c d t).1.compactions_performed = b.compactions_performed ∧
    (((store_compliance_check b c d t).1.memory_store).map Prod.fst).Nodup := by
  rw [store_no_compaction b c d t hkeys hmax]
  refine ⟨?_, ?_, rfl, rfl, ?_⟩
  · show (alLookup (alSet b.memory_store c (entriesOf b c ++ [mkMemoryEntry c d t])) c).getD []
        = entriesOf b c ++ [mkMemoryEntry c d t]
    rw [alLookup_alSet_self]
    rfl
  · show ((alSet b.memory_store c (entriesOf b c ++ [mkMemoryEntry c d t])).map
        (fun p => p.2.length)).sum = globalEntryCount b + 1
    rw [show (entriesOf b c ++ [mkMemoryEntry c d t])
        = ((alLookup b.memory_store c).getD [] ++ [mkMemoryEntry c d t])
        from rfl]
    rw [sum_lengths_alSet [mkMemoryEntry c d t] hkeys]
    rfl
  · exact alSet_keys_nodup _ _ _ hkeys

/-- Claim C5 is false on the code: the entry id of memory_bank.py line 46
has second granularity (strftime %Y%m%d-%H%M%S), so two stores of identical
payloads within the same second return the SAME identifier; the two entries
are nevertheless both appended. -/
theorem C5_same_second_id_collision_cex :
    (store_compliance_check ({} : MemoryBank) "acme-1" exReport 0).2
      = "COMP-acme-1-0" ∧
    (store_compliance_check
      (store_compliance_check ({} : MemoryBank) "acme-1" exReport 0).1
      "acme-1" exReport 1).2 = "COMP-acme-1-0" ∧
    (entriesOf (store_compliance_check
      (store_compliance_check ({} : MemoryBank) "acme-1" exReport 0).1
      "acme-1" exReport 1).1 "acme-1").length = 2 := by
  exact ⟨rfl, rfl, rfl⟩

/-- Claim C5 (amended): two store calls with identical payloads for the same
company always append both entries - the store never deduplicates - and,
provided neither call pushes the global count over max_entries (so no
compaction pass runs) and the two calls fall in different second-resolution
timestamps, both entries are present afterwards and the two returned
identifiers are distinct.  Identifiers collide exactly when the two calls
share the formatted second. -/
theorem C5_append_only_ids (b : MemoryBank) (c : String) (d : ComplianceData)
    (t1 t2 : Nat) (hkeys : (b.memory_store.map Prod.fst).Nodup)
    (hmax : globalEntryCount b + 2 ≤ b.max_entries)
    (hsec : toString (t1 / 1000000) ≠ toString (t2 / 1000000)) :
    (store_compliance_check b c d t1).2 = mkEntryId c t1 ∧
    (store_compliance_check (store_compliance_check b c d t1).1 c d t2).2
      = mkEntryId c t2 ∧
    mkEntryId c t1 ≠ mkEntryId c t2 ∧
    entriesOf (store_compliance_check (store_compliance_check b c d t1).1 c d t2).1 c
      = entriesOf b c ++ [mkMemoryEntry c d t1, mkMemoryEntry c d t2] := by
  obtain ⟨he1, hg1, hm1, _, hk1⟩ :=
    store_no_compaction_facts b c d t1 hkeys (by omega)
  obtain ⟨he2, _, _, _, _⟩ :=
    store_no_compaction_facts (store_compliance_check b c d t1).1 c d t2 hk1
      (by rw [hg1, hm1]; omega)
  refine ⟨store_snd b c d t1, store_snd _ c d t2, mkEntryId_ne c t1 t2 hsec, ?_⟩
  rw [he2, he1, List.append_assoc]
  rfl

/-- Witness for the amended C5 on an empty bank with calls one second
apart. -/
theorem C5_append_only_ids_witness :
    (store_compliance_check ({} : MemoryBank) "acme-1" exReport 0).2
        = mkEntryId "acme-1" 0 ∧
    (store_compliance_check
        (store_compliance_check ({} : MemoryBank) "acme-1" exReport 0).1
        "acme-1" exReport 1000000).2 = mkEntryId "acme-1" 1000000 ∧
    mkEntryId "acme-1" 0 ≠ mkEntryId "acme-1" 1000000 ∧
    entriesOf (store_compliance_check
        (store_compliance_check ({} : MemoryBank) "acme-1" exReport 0).1
        "acme-1" exReport 1000000).1 "acme-1"
      = entriesOf ({} : MemoryBank) "acme-1" ++
          [mkMemoryEntry "acme-1" exReport 0,
           mkMemoryEntry "acme-1" exReport 1000000] :=
  C5_append_only_ids ({} : MemoryBank) "acme-1" exReport 0 1000000
    (by decide) (by decide) (by decide)

/-! ## Claim C4 -/

/-- A manager whose single session was ended with status timeout by the
reaper: created at time 0, reaped at 3700000000 microseconds (about 61
minutes) against the default 60-minute timeout. -/
def smC4 : SessionManager :=
  cleanup_expired_sessions
    ((create_session ({} : SessionManager) "sid-1" "acme-1" "compliance_check" 0).1)
    3700000000

/-- Claim C4 is false on the code for ended sessions: after the reaper ends
a session with status timeout, get_session still returns the session record
(session_manager.py line 106 falls back to the history map) and
update_session_context consequently succeeds on it, returning True - neither
reports the None/False failure the claim requires. -/
theorem C4_ended_session_reachable_cex :
    ((get_session smC4 "sid-1" 3800000000).2.map Session.status) = some "timeout" ∧
    (update_session_context smC4 "sid-1" [] 3800000000).2 = true := by
  exact ⟨rfl, rfl⟩

/-- Claim C4 (amended): for an UNKNOWN session id (absent from both the
active and the history map), get_session returns None and
update_session_context and record_agent_interaction return False, all
without raising and without touching the state.  An ENDED session, however,
remains reachable through the history map: get_session returns the ended
record and update_session_context succeeds (returns True) on it. -/
theorem C4_session_not_found (sm : SessionManager) (sid agent : String)
    (u : List (String × PyVal)) (inp outp : PyVal) (now : Nat) :
    (alLookup sm.active_sessions sid = none →
      alLookup sm.session_history sid = none →
      get_session sm sid now = (sm, none) ∧
      update_session_context sm sid u now = (sm, false) ∧
      record_agent_interaction sm sid agent inp outp now = (sm, .ok false)) ∧
    (∀ s, alLookup sm.active_sessions sid = none →
      alLookup sm.session_history sid = some s →
      (get_session sm sid now).2 = some s ∧
      (update_session_context sm sid u now).2 = true) := by
  constructor
  · intro h1 h2
    refine ⟨?_, ?_, ?_⟩ <;>
      simp [get_session, update_session_context, record_agent_interaction, h1, h2]
  · intro s h1 h2
    constructor <;>
      simp [get_session, update_session_context, h1, h2]

/-- Witness for the amended C4: an unknown id on the reaped manager fails
softly, while the reaped session itself is still updatable. -/
theorem C4_session_not_found_witness :
    get_session smC4 "missing" 0 = (smC4, none) ∧
    (update_session_context smC4 "sid-1" [] 0).2 = true := by
  constructor
  · exact ((C4_session_not_found smC4 "missing" "m" [] (.vdict []) (.vdict []) 0).1
      rfl rfl).1
  · obtain ⟨s, hs⟩ : ∃ s, alLookup smC4.session_history "sid-1" = some s := ⟨_, rfl⟩
    exact ((C4_session_not_found smC4 "sid-1" "m" [] (.vdict []) (.vdict []) 0).2
      s rfl hs).2

/-! ## Claim C10 -/

theorem alLookup_compact_map (l : List (String × List MemoryEntry)) (c : String) :
    alLookup (l.map (fun p => if p.2.length > 100 then (p.1, compactEntries p.2) else p)) c
      = (alLookup l c).map (fun es => if es.length > 100 then compactEntries es else es) := by
  induction l with
  | nil => rfl
  | cons p t ih =>
    rw [List.map_cons]
    by_cases hp : (p.1 == c) = true
    · by_cases h2 : p.2.length > 100
      · rw [if_pos h2, alLookup_cons_eq p t c hp,
          alLookup_cons_eq (p.1, compactEntries p.2) _ c hp]
        simp [h2]
      · rw [if_neg h2, alLookup_cons_eq p t c hp, alLookup_cons_eq p _ c hp]
        simp [h2]
    · have hp' : (p.1 == c) = false := by simpa using hp
      by_cases h2 : p.2.length > 100
      · rw [if_pos h2, alLookup_cons_ne p t c hp',
          alLookup_cons_ne (p.1, compactEntries p.2) _ c hp', ih]
      · rw [if_neg h2, alLookup_cons_ne p t c hp', alLookup_cons_ne p _ c hp', ih]

theorem compact_map_keys (l : List (String × List MemoryEntry)) :
    (l.map (fun p => if p.2.length > 100 then (p.1, compactEntries p.2) else p)).map
      Prod.fst = l.map Prod.fst := by
  rw [List.map_map]
  apply List.map_congr_left
  intro p _
  by_cases h2 : p.2.length > 100 <;> simp [h2]

/-- Claim C10: a compaction pass replaces only the per-company entry lists
of companies holding strictly more than 100 entries at that moment; the
entry list of every company with at most 100 entries, the audit trail, and
the total_stored counter are unchanged; the set of companies is unchanged. -/
theorem C10_compaction_frame (b : MemoryBank) (now : Nat) :
    (compact_memory b now).audit_trail = b.audit_trail ∧
    (compact_memory b now).total_stored = b.total_stored ∧
    (compact_memory b now).memory_store.map Prod.fst = b.memory_store.map Prod.fst ∧
    (∀ c es, alLookup b.memory_store c = some es → es.length ≤ 100 →
      alLookup (compact_memory b now).memory_store c = some es) ∧
    (∀ c es, alLookup b.memory_store c = some es → es.length > 100 →
      alLookup (compact_memory b now).memory_store c = some (compactEntries es)) := by
  refine ⟨rfl, rfl, compact_map_keys b.memory_store, ?_, ?_⟩
  · intro c es h hle
    show alLookup (b.memory_store.map
      (fun p => if p.2.length > 100 then (p.1, compactEntries p.2) else p)) c = some es
    rw [alLookup_compact_map, h]
    show some (if es.length > 100 then compactEntries es else es) = some es
    rw [if_neg (by omega)]
  · intro c es h hgt
    show alLookup (b.memory_store.map
      (fun p => if p.2.length > 100 then (p.1, compactEntries p.2) else p)) c = some (compactEntries es)
    rw [alLookup_compact_map, h]
    show some (if es.length > 100 then compactEntries es else es) = some (compactEntries es)
    rw [if_pos hgt]

/-- A one-entry bank reached by a single store. -/
def bC10 : MemoryBank :=
  (store_compliance_check ({} : MemoryBank) "acme-1" exReport 0).1

/-- Witness for C10: compacting a bank whose only company holds one entry
changes nothing except the compaction counter. -/
theorem C10_compaction_frame_witness :
    (compact_memory bC10 5).audit_trail = bC10.audit_trail ∧
    alLookup (compact_memory bC10 5).memory_store "acme-1"
      = some [mkMemoryEntry "acme-1" exReport 0] := by
  have h := C10_compaction_frame bC10 5
  exact ⟨h.1, h.2.2.2.1 "acme-1" [mkMemoryEntry "acme-1" exReport 0] rfl (by decide)⟩

/-! ## Claim C9 -/

/-- The retrieved history is sorted newest first. -/
theorem retrieve_pairwise (b : MemoryBank) (c : String) (ld now : Nat) :
    (retrieve_compliance_history b c ld now).Pairwise
      (fun a b => b.timestamp ≤ a.timestamp) := by
  unfold retrieve_compliance_history
  split
  · exact List.Pairwise.nil
  · rename_i entries _
    have hs := List.sorted_insertionSort tsGE
      (entries.filter (fun e => decide (now - ld * 86400000000 ≤ e.timestamp)))
    exact hs.imp (fun h => h)

/-- Appending no gaps leaves the accumulator unchanged. -/
theorem foldl_gaps_nil :
    ∀ (l : List MemoryEntry),
      (∀ e ∈ l, e.key_findings.high_priority_gaps = []) →
      ∀ acc : List (List Gap),
        l.foldl (fun acc e => acc ++ e.key_findings.high_priority_gaps) acc = acc
  | [], _, _ => rfl
  | e :: t, h, acc => by
    simp only [List.foldl_cons]
    rw [h e (List.mem_cons_self e t), List.append_nil]
    exact foldl_gaps_nil t (fun x hx => h x (List.mem_cons_of_mem e hx)) acc

/-- The trend labels of get_compliance_trends on histories free of
high-priority gaps (where the Counter calls do not raise): the error result
for an empty 180-day window, the label insufficient_data for exactly one
in-window entry, and otherwise a comparison of the most recent in-window
entry against the oldest one. -/
theorem trends_score_labels_gap_free (b : MemoryBank) (c : String) (now : Nat)
    (hgaps : ∀ e ∈ retrieve_compliance_history b c 180 now,
      e.key_findings.high_priority_gaps = []) :
    (retrieve_compliance_history b c 180 now = [] →
      get_compliance_trends b c now = .ok (.err "No compliance history found")) ∧
    ((retrieve_compliance_history b c 180 now).length = 1 →
      trendsScoreTrend? (get_compliance_trends b c now) = some "insufficient_data") ∧
    (∀ e_new e_old : MemoryEntry,
      (retrieve_compliance_history b c 180 now).head? = some e_new →
      (retrieve_compliance_history b c 180 now).getLast? = some e_old →
      2 ≤ (retrieve_compliance_history b c 180 now).length →
      (∀ e ∈ retrieve_compliance_history b c 180 now,
        e.timestamp ≤ e_new.timestamp) ∧
      (∀ e ∈ retrieve_compliance_history b c 180 now,
        e_old.timestamp ≤ e.timestamp) ∧
      trendsScoreTrend? (get_compliance_trends b c now) =
        some (if e_new.compliance_score > e_old.compliance_score then "improving"
              else if e_new.compliance_score < e_old.compliance_score then "declining"
              else "stable")) := by
  refine ⟨?_, ?_, ?_⟩
  · intro h0
    simp [get_compliance_trends, h0]
  · intro h1
    have hne : retrieve_compliance_history b c 180 now ≠ [] := by
      intro h
      rw [h] at h1
      simp at h1
    simp only [get_compliance_trends]
    rw [if_neg (by simpa using hne)]
    rw [foldl_gaps_nil (retrieve_compliance_history b c 180 now) hgaps []]
    simp only [List.isEmpty_nil, if_true, trendsScoreTrend?, TrendsResult.scoreTrend?]
    rw [if_neg]
    rw [List.length_map, h1]
    omega
  · intro e_new e_old hhead hlast hlen2
    have hp := retrieve_pairwise b c 180 now
    have hmax : ∀ e ∈ retrieve_compliance_history b c 180 now,
        e.timestamp ≤ e_new.timestamp := by
      intro e he
      cases hLc : retrieve_compliance_history b c 180 now with
      | nil => rw [hLc] at hhead; simp at hhead
      | cons x tail =>
        have hx : x = e_new := by
          rw [hLc] at hhead
          simpa using hhead
        rw [hLc] at he hp
        rcases List.pairwise_cons.mp hp with ⟨hhd, _⟩
        rcases List.mem_cons.mp he with he1 | he2
        · rw [he1, hx]
        · rw [← hx]
          exact hhd e he2
    have hmin : ∀ e ∈ retrieve_compliance_history b c 180 now,
        e_old.timestamp ≤ e.timestamp := by
      intro e he
      have hrev : (retrieve_compliance_history b c 180 now).reverse.Pairwise
          (fun a b => a.timestamp ≤ b.timestamp) := List.pairwise_reverse.mpr hp
      have hrhead : (retrieve_compliance_history b c 180 now).reverse.head?
          = some e_old := by rw [List.head?_reverse, hlast]
      have he' : e ∈ (retrieve_compliance_history b c 180 now).reverse :=
        List.mem_reverse.mpr he
      cases hRc : (retrieve_compliance_history b c 180 now).reverse with
      | nil => rw [hRc] at hrhead; simp at hrhead
      | cons y rtail =>
        have hy : y = e_old := by
          rw [hRc] at hrhead
          simpa using hrhead
        rw [hRc] at he' hrev
        rcases List.pairwise_cons.mp hrev with ⟨hhd, _⟩
        rcases List.mem_cons.mp he' with he1 | he2
        · rw [he1, hy]
        · rw [← hy]
          exact hhd e he2
    refine ⟨hmax, hmin, ?_⟩
    have hne : retrieve_compliance_history b c 180 now ≠ [] := by
      intro h
      rw [h] at hlen2
      simp at hlen2
    simp only [get_compliance_trends]
    rw [if_neg (by simpa using hne)]
    rw [foldl_gaps_nil (retrieve_compliance_history b c 180 now) hgaps []]
    simp only [List.isEmpty_nil, if_true, trendsScoreTrend?, TrendsResult.scoreTrend?]
    rw [if_pos (by rw [List.length_map]; omega)]
    have h0 : ((retrieve_compliance_history b c 180 now).map
        (fun e => e.compliance_score)).headD 0 = e_new.compliance_score := by
      rw [List.headD_eq_head?_getD, List.head?_map, hhead]
      rfl
    have hl : ((retrieve_compliance_history b c 180 now).map
        (fun e => e.compliance_score)).getLastD 0 = e_old.compliance_score := by
      rw [List.getLastD_eq_getLast?, List.getLast?_map, hlast]
      rfl
    rw [h0, hl]

def d50 : ComplianceData := { exReport with overall_compliance_score := 50 }

def d80 : ComplianceData := { exReport with overall_compliance_score := 80 }

/-- A bank holding two entries for one company with increasing score over
time. -/
def bC9 : MemoryBank :=
  (store_compliance_check
    (store_compliance_check ({} : MemoryBank) "acme-1" d50 0).1
    "acme-1" d80 1000000).1

/-- Demonstration of the gap-free labels at a concrete two-entry history
with increasing scores: the label is improving. -/
theorem trends_score_labels_gap_free_demo :
    trendsScoreTrend? (get_compliance_trends bC9 "acme-1" 2000000)
      = some "improving" := by
  have h := (trends_score_labels_gap_free bC9 "acme-1" 2000000 (by decide)).2.2
    (mkMemoryEntry "acme-1" d80 1000000) (mkMemoryEntry "acme-1" d50 0)
    (by decide) (by decide) (by decide)
  rw [h.2.2]
  decide

/-- A high-severity GDPR gap, as in the trend-analysis
integration test. -/
def gapHigh : Gap :=
  { regulation := "GDPR", gap_type := "data_retention", severity := "high",
    description := "Gap", affected_areas := ["security"] }

def dHigh50 : ComplianceData :=
  { exReport with
    overall_compliance_score := 50
    gap_breakdown := [("GDPR", [gapHigh])] }

def dHigh80 : ComplianceData :=
  { exReport with
    overall_compliance_score := 80
    gap_breakdown := [("GDPR", [gapHigh])] }

/-- Two stored checks with increasing score whose reports mention a
high-severity gap - the configuration that the integration test
test_trend_analysis_integration of the repository builds. -/
def bC9bug : MemoryBank :=
  (store_compliance_check
    (store_compliance_check ({} : MemoryBank) "acme-1" dHigh50 0).1
    "acme-1" dHigh80 1000000).1

/-- Claim C9 names a code bug: for any history whose entries mention
high-priority gaps, Counter(all_gaps) at memory_bank.py line 150 hashes
list values and raises TypeError, so get_compliance_trends raises instead
of returning the score_trend label ("improving" here, per the claim, since
the two in-window scores rise from 50 to 80).  The integration test
test_trend_analysis_integration of the repository itself builds exactly such a
history and asserts the improving label, so the code contradicts its own
test. -/
theorem C9_trends_type_error :
    get_compliance_trends bC9bug "acme-1" 2000000
      = Except.error "TypeError: unhashable type: list" ∧
    (retrieve_compliance_history bC9bug "acme-1" 180 2000000).length = 2 ∧
    ((retrieve_compliance_history bC9bug "acme-1" 180 2000000).map
      (fun e => e.compliance_score)) = [80, 50] := by
  refine ⟨by decide, by decide, by decide⟩

/-! ## Claim C2 -/

theorem pyDictInsert_subset (acc : List MemoryEntry) (e x : MemoryEntry)
    (hx : x ∈ pyDictInsert acc e) : x ∈ acc ∨ x = e := by
  unfold pyDictInsert at hx
  split at hx
  · rw [List.mem_map] at hx
    obtain ⟨y, hy, hxy⟩ := hx
    by_cases h : (y.entry_id == e.entry_id) = true
    · rw [if_pos h] at hxy
      right
      exact hxy.symm
    · rw [if_neg h] at hxy
      left
      exact hxy ▸ hy
  · rw [List.mem_append] at hx
    rcases hx with h | h
    · exact Or.inl h
    · right
      simpa using h

theorem foldl_pyDictInsert_subset :
    ∀ (l acc : List MemoryEntry), ∀ x ∈ l.foldl pyDictInsert acc,
      x ∈ acc ∨ x ∈ l
  | [], _, _, hx => Or.inl hx
  | e :: t, acc, x, hx => by
    rcases foldl_pyDictInsert_subset t (pyDictInsert acc e) x hx with h | h
    · rcases pyDictInsert_subset acc e x h with h' | h'
      · exact Or.inl h'
      · exact Or.inr (h' ▸ List.mem_cons_self e t)
    · exact Or.inr (List.mem_cons_of_mem e h)

theorem pyDictInsert_ids_superset (acc : List MemoryEntry) (e : MemoryEntry)
    (s : String) (hs : s ∈ acc.map MemoryEntry.entry_id) :
    s ∈ (pyDictInsert acc e).map MemoryEntry.entry_id := by
  unfold pyDictInsert
  split
  · rw [List.map_map]
    rw [List.mem_map] at hs ⊢
    obtain ⟨y, hy, hys⟩ := hs
    refine ⟨y, hy, ?_⟩
    by_cases h : (y.entry_id == e.entry_id) = true
    · have he : y.entry_id = e.entry_id := by simpa using h
      simp only [Function.comp_apply, if_pos h]
      rw [← he, hys]
    · simp only [Function.comp_apply, if_neg h]
      exact hys
  · rw [List.map_append]
    exact List.mem_append_left _ hs

theorem pyDictInsert_ids_self (acc : List MemoryEntry) (e : MemoryEntry) :
    e.entry_id ∈ (pyDictInsert acc e).map MemoryEntry.entry_id := by
  unfold pyDictInsert
  split
  · rename_i h
    rw [List.any_eq_true] at h
    obtain ⟨y, hy, hye⟩ := h
    rw [List.map_map, List.mem_map]
    refine ⟨y, hy, ?_⟩
    simp only [Function.comp_apply, if_pos hye]
  · rw [List.map_append]
    apply List.mem_append_right
    simp

theorem foldl_pyDictInsert_ids :
    ∀ (l acc : List MemoryEntry) (s : String),
      (s ∈ acc.map MemoryEntry.entry_id ∨ s ∈ l.map MemoryEntry.entry_id) →
      s ∈ (l.foldl pyDictInsert acc).map MemoryEntry.entry_id
  | [], _, _, h => by
    rcases h with h | h
    · exact h
    · simp at h
  | e :: t, acc, s, h => by
    apply foldl_pyDictInsert_ids t (pyDictInsert acc e) s
    rcases h with h | h
    · exact Or.inl (pyDictInsert_ids_superset acc e s h)
    · rw [List.map_cons, List.mem_cons] at h
      rcases h with h | h
      · exact Or.inl (h ▸ pyDictInsert_ids_self acc e)
      · exact Or.inr h

/-- Every pre-compaction entry with compliance_score below 70 survives
per-company compaction, provided the entry ids are pairwise distinct (true
of every bank built by store calls at distinct seconds). -/
theorem compactEntries_keeps_low_scores (entries : List MemoryEntry)
    (hids : (entries.map MemoryEntry.entry_id).Nodup) :
    ∀ e ∈ entries, e.compliance_score < 70 → e ∈ compactEntries entries := by
  intro e he hlow
  have hhr : e ∈ entries.filter isHighRisk := by
    rw [List.mem_filter]
    refine ⟨he, ?_⟩
    unfold isHighRisk
    simp [hlow]
  have hid : e.entry_id ∈
      ((entries.filter isHighRisk ++
        (List.insertionSort tsGE entries).take 50).foldl pyDictInsert
          []).map MemoryEntry.entry_id := by
    apply foldl_pyDictInsert_ids
    right
    rw [List.map_append]
    exact List.mem_append_left _ (List.mem_map_of_mem _ hhr)
  rw [List.mem_map] at hid
  obtain ⟨x, hx, hxe⟩ := hid
  have hx' : x ∈ entries := by
    rcases foldl_pyDictInsert_subset _ [] x hx with h | h
    · simp at h
    · rw [List.mem_append] at h
      rcases h with h | h
      · exact List.mem_of_mem_filter h
      · exact ((List.perm_insertionSort tsGE entries).mem_iff).mp
          (List.take_subset _ _ h)
  have hxeq : x = e := List.inj_on_of_nodup_map hids hx' he hxe
  show e ∈ (entries.filter isHighRisk ++
    (List.insertionSort tsGE entries).take 50).foldl pyDictInsert []
  exact hxeq ▸ hx

/-- A company holding more than 100 distinct-id entries keeps at least its
50 most recent entries through compaction. -/
theorem compactEntries_length (entries : List MemoryEntry)
    (hlen : entries.length > 100)
    (hids : (entries.map MemoryEntry.entry_id).Nodup) :
    50 ≤ (compactEntries entries).length := by
  have hrlen : ((List.insertionSort tsGE entries).take 50).length = 50 := by
    rw [List.length_take, (List.perm_insertionSort tsGE entries).length_eq]
    omega
  have hnodup2 : ((List.insertionSort tsGE entries).map MemoryEntry.entry_id).Nodup :=
    (((List.perm_insertionSort tsGE entries).map MemoryEntry.entry_id).nodup_iff).mpr hids
  have hrnodup : (((List.insertionSort tsGE entries).take 50).map
      MemoryEntry.entry_id).Nodup := by
    rw [List.map_take]
    exact hnodup2.sublist (List.take_sublist _ _)
  have hcover : ∀ s ∈ ((List.insertionSort tsGE entries).take 50).map
      MemoryEntry.entry_id,
      s ∈ ((entries.filter isHighRisk ++
        (List.insertionSort tsGE entries).take 50).foldl pyDictInsert
          []).map MemoryEntry.entry_id := by
    intro s hs
    apply foldl_pyDictInsert_ids
    right
    rw [List.map_append]
    exact List.mem_append_right _ hs
  have h1 : (((List.insertionSort tsGE entries).take 50).map
      MemoryEntry.entry_id).toFinset.card = 50 := by
    rw [List.toFinset_card_of_nodup hrnodup, List.length_map, hrlen]
  have h2 : (((List.insertionSort tsGE entries).take 50).map
      MemoryEntry.entry_id).toFinset ⊆
      (((entries.filter isHighRisk ++
        (List.insertionSort tsGE entries).take 50).foldl pyDictInsert
          []).map MemoryEntry.entry_id).toFinset := by
    intro s hs
    rw [List.mem_toFinset] at hs ⊢
    exact hcover s hs
  have h3 := List.toFinset_card_le (((entries.filter isHighRisk ++
    (List.insertionSort tsGE entries).take 50).foldl pyDictInsert
      []).map MemoryEntry.entry_id)
  have h4 := Finset.card_le_card h2
  rw [List.length_map] at h3
  show 50 ≤ ((entries.filter isHighRisk ++
    (List.insertionSort tsGE entries).take 50).foldl pyDictInsert []).length
  omega

/-- When the post-append global count exceeds max_entries,
store_compliance_check appends and then runs the compaction pass. -/
theorem store_with_compaction (b : MemoryBank) (c : String) (d : ComplianceData)
    (t : Nat) (hkeys : (b.memory_store.map Prod.fst).Nodup)
    (hgt : globalEntryCount b + 1 > b.max_entries) :
    store_compliance_check b c d t =
      (compact_memory
        { b with
            memory_store := alSet b.memory_store c (entriesOf b c ++ [mkMemoryEntry c d t])
            audit_trail := b.audit_trail ++
              [{ action := "compliance_check_stored", company_id := c,
                 entry_id := mkEntryId c t, timestamp := t,
                 compliance_score := d.overall_compliance_score }]
            total_stored := b.total_stored + 1 } t, mkEntryId c t) := by
  simp only [store_compliance_check]
  split
  · rfl
  · rename_i hsc
    exfalso
    simp only [should_compact, globalEntryCount, decide_eq_true_eq] at hsc
    rw [show (entriesOf b c ++ [mkMemoryEntry c d t])
        = ((alLookup b.memory_store c).getD [] ++ [mkMemoryEntry c d t])
        from rfl] at hsc
    rw [sum_lengths_alSet [mkMemoryEntry c d t] hkeys] at hsc
    simp only [List.length_cons, List.length_nil] at hsc
    have hcount : globalEntryCount b
        = (b.memory_store.map (fun p => p.2.length)).sum := rfl
    omega

/-- The compaction-path analogue of store_no_compaction_facts. -/
theorem store_with_compaction_facts (b : MemoryBank) (c : String)
    (d : ComplianceData) (t : Nat)
    (hkeys : (b.memory_store.map Prod.fst).Nodup)
    (hgt : globalEntryCount b + 1 > b.max_entries) :
    (store_compliance_check b c d t).1.compactions_performed
        = b.compactions_performed + 1 ∧
    entriesOf (store_compliance_check b c d t).1 c =
      (if (entriesOf b c ++ [mkMemoryEntry c d t]).length > 100
       then compactEntries (entriesOf b c ++ [mkMemoryEntry c d t])
       else entriesOf b c ++ [mkMemoryEntry c d t]) := by
  rw [store_with_compaction b c d t hkeys hgt]
  constructor
  · rfl
  · show (alLookup ((alSet b.memory_store c
        (entriesOf b c ++ [mkMemoryEntry c d t])).map
          (fun p => if p.2.length > 100 then (p.1, compactEntries p.2) else p))
        c).getD [] = _
    rw [alLookup_compact_map, alLookup_alSet_self]
    rfl

/-- A sequence of stores seen as one fold (used only by concrete runs). -/
def storeTimes (b : MemoryBank) (c : String) (d : ComplianceData)
    (times : List Nat) : MemoryBank :=
  times.foldl (fun acc t => (store_compliance_check acc c d t).1) b

/-- A default-constructed bank after 101 stores for one company, one second
apart. -/
def bC2 : MemoryBank :=
  storeTimes ({} : MemoryBank) "acme-1" exReport
    ((List.range 101).map (fun i => i * 1000000))

/-- Claim C2 is false on the code: with the constructor default
max_entries = 10000, the call that brings a company to 101 entries triggers
NO compaction at all - _should_compact compares the GLOBAL entry count with
max_entries (memory_bank.py lines 255-258) and 101 is far below 10000 - so
the per-company threshold of 100 alone never starts a compaction pass. -/
theorem C2_per_company_threshold_cex :
    (entriesOf bC2 "acme-1").length = 101 ∧
    bC2.compactions_performed = 0 ∧
    should_compact bC2 = false := by
  refine ⟨by decide, by decide, by decide⟩

/-- Claim C2 (amended): a store call that leaves the company at K ≤ 100
entries never compacts the list of that company; compaction is triggered only
when the GLOBAL entry count exceeds max_entries, never by the per-company
count; and when a store call does trigger compaction while the company
holds K > 100 entries with pairwise distinct entry ids, afterwards the
company retains at least min(K, 50) entries and every pre-compaction entry
with compliance_score below 70.  (The dict invariant that company keys are
unique is a hypothesis; every reachable state satisfies it.) -/
theorem C2_compaction_behavior (b : MemoryBank) (c : String)
    (d : ComplianceData) (t : Nat)
    (hkeys : (b.memory_store.map Prod.fst).Nodup) :
    ((entriesOf b c ++ [mkMemoryEntry c d t]).length ≤ 100 →
      entriesOf (store_compliance_check b c d t).1 c
        = entriesOf b c ++ [mkMemoryEntry c d t]) ∧
    (globalEntryCount b + 1 ≤ b.max_entries →
      (store_compliance_check b c d t).1.compactions_performed
          = b.compactions_performed ∧
      entriesOf (store_compliance_check b c d t).1 c
        = entriesOf b c ++ [mkMemoryEntry c d t]) ∧
    (globalEntryCount b + 1 > b.max_entries →
      (store_compliance_check b c d t).1.compactions_performed
          = b.compactions_performed + 1 ∧
      ((entriesOf b c ++ [mkMemoryEntry c d t]).length > 100 →
        ((entriesOf b c ++ [mkMemoryEntry c d t]).map MemoryEntry.entry_id).Nodup →
        min (entriesOf b c ++ [mkMemoryEntry c d t]).length 50
            ≤ (entriesOf (store_compliance_check b c d t).1 c).length ∧
        ∀ e ∈ entriesOf b c ++ [mkMemoryEntry c d t], e.compliance_score < 70 →
          e ∈ entriesOf (store_compliance_check b c d t).1 c)) := by
  by_cases hglob : globalEntryCount b + 1 ≤ b.max_entries
  · obtain ⟨he, _, _, hcp, _⟩ := store_no_compaction_facts b c d t hkeys hglob
    exact ⟨fun _ => he, fun _ => ⟨hcp, he⟩, fun hcontra => absurd hcontra (by omega)⟩
  · have hgt : globalEntryCount b + 1 > b.max_entries := by omega
    obtain ⟨hcp, hent⟩ := store_with_compaction_facts b c d t hkeys hgt
    refine ⟨?_, fun hle => absurd hle hglob, fun _ => ⟨hcp, ?_⟩⟩
    · intro h100
      rw [hent, if_neg (by omega)]
    · intro h100 hids
      rw [hent, if_pos h100]
      constructor
      · have hlb := compactEntries_length
          (entriesOf b c ++ [mkMemoryEntry c d t]) h100 hids
        have hmin := Nat.min_le_right
          (entriesOf b c ++ [mkMemoryEntry c d t]).length 50
        omega
      · exact compactEntries_keeps_low_scores
          (entriesOf b c ++ [mkMemoryEntry c d t]) hids

/-- 101 pre-existing entries for one company, distinct seconds. -/
def preEntriesC2 : List MemoryEntry :=
  (List.range 101).map (fun i => mkMemoryEntry "acme-1" exReport (i * 1000000))

/-- A bank already over its (small) global budget whose company holds 101
entries. -/
def bC2small : MemoryBank :=
  { max_entries := 5, memory_store := [("acme-1", preEntriesC2)] }

/-- Witness for the amended C2: the store that brings the company to 102
entries triggers compaction and at least 50 entries survive. -/
theorem C2_compaction_behavior_witness :
    min (entriesOf bC2small "acme-1" ++
        [mkMemoryEntry "acme-1" exReport 101000000]).length 50
      ≤ (entriesOf (store_compliance_check bC2small "acme-1" exReport
          101000000).1 "acme-1").length := by
  have h := (C2_compaction_behavior bC2small "acme-1" exReport 101000000
    (by decide)).2.2 (by decide)
  exact (h.2 (by decide) (by decide)).1

end ComplianceGuard
